import Mathlib

set_option maxRecDepth 8000

/- Batteries marks the rational operations irreducible for performance of
unification; concrete runs of the embedded program are checked by decide,
which needs them to unfold. -/
set_option allowUnsafeReducibility true in
attribute [semireducible] Rat.add Rat.sub Rat.mul Rat.inv Rat.ofScientific

/-!
Verification development for the financial statement analyser
(statement parser, transaction categorizer, analytics engine).

The Python source is shallowly embedded: machine floats become exact
rationals, pandas timestamps become day numbers of the proleptic Gregorian
calendar, pandas DataFrame rows become record structures, exceptions become
the Except monad, and the externally trained scikit-learn artifacts
(vectorizer plus classifier) are abstracted as an opaque prediction
function parameter.  String helpers are re-implemented structurally over
character lists so that every definition evaluates inside the kernel.
-/

/-! ## Character and string helpers (structural re-implementations) -/

/-- Does the pattern stand at the head of the character list? -/
def startsWithChars : List Char → List Char → Bool
  | [], _ => true
  | _ :: _, [] => false
  | a :: as, b :: bs => a == b && startsWithChars as bs

/-- Substring search over character lists; models re.search for the
regex-metacharacter-free literal patterns the categorizer uses. -/
def containsSubChars (pat : List Char) (s : List Char) : Bool :=
  match s with
  | [] => pat.isEmpty
  | _ :: rest => startsWithChars pat s || containsSubChars pat rest

/-- Models re.search of a literal pattern inside a string. -/
def reSearch (pat s : String) : Bool :=
  containsSubChars pat.data s.data

/-- Lower-case a string (models str.lower for the ASCII data at hand). -/
def lowerStr (s : String) : String :=
  ⟨s.data.map Char.toLower⟩

/-- Strip whitespace from both ends of a character list. -/
def trimChars (cs : List Char) : List Char :=
  ((cs.dropWhile Char.isWhitespace).reverse.dropWhile Char.isWhitespace).reverse

/-- Models str.strip. -/
def trimStr (s : String) : String :=
  ⟨trimChars s.data⟩

/-- Models str.endswith. -/
def strEndsWith (s suf : String) : Bool :=
  startsWithChars suf.data.reverse s.data.reverse

/-- Split a character list on a separator character (models str.split on a
one-character separator, as used for the date formats). -/
def splitOnChar (sep : Char) : List Char → List (List Char)
  | [] => [[]]
  | c :: rest =>
    let r := splitOnChar sep rest
    if c == sep then [] :: r
    else
      match r with
      | h :: t => (c :: h) :: t
      | [] => [[c]]

/-- Value of a non-empty all-digit character list, none otherwise. -/
def digitsToNatAux (acc : Nat) : List Char → Option Nat
  | [] => some acc
  | c :: cs => if c.isDigit then digitsToNatAux (acc * 10 + (c.toNat - 48)) cs else none

/-- Value of a non-empty all-digit character list, none otherwise. -/
def digitsToNat (cs : List Char) : Option Nat :=
  match cs with
  | [] => none
  | _ => digitsToNatAux 0 cs

/-! ## Exact decimal parsing (Python float() on the statement data) -/

/-- Digits with an optional single decimal point, as an exact rational.
Python float() also accepts exponents and special values; the statement
columns only ever carry plain decimals, which is what is modelled. -/
def floatChars (cs : List Char) : Option ℚ :=
  match splitOnChar '.' cs with
  | [intPart] => (digitsToNat intPart).map (fun n => (n : ℚ))
  | [intPart, fracPart] =>
    if intPart.isEmpty && fracPart.isEmpty then none
    else
      match (if intPart.isEmpty then some 0 else digitsToNat intPart),
            (if fracPart.isEmpty then some 0 else digitsToNat fracPart) with
      | some i, some f => some ((i : ℚ) + (f : ℚ) / ((10 : ℚ) ^ fracPart.length))
      | _, _ => none
  | _ => none

/-- Models Python float(s) on the amount fields (sign and plain decimal). -/
def floatOfString (s : String) : Option ℚ :=
  match s.data with
  | [] => none
  | '-' :: rest => (floatChars rest).map (fun q => -q)
  | '+' :: rest => floatChars rest
  | cs => floatChars cs

/-! ## Calendar dates -/

/-- Gregorian leap year test. -/
def isLeapYear (y : Nat) : Bool :=
  y % 4 == 0 && (y % 100 != 0 || y % 400 == 0)

/-- Length of a Gregorian month. -/
def gregDaysInMonth (y m : Nat) : Nat :=
  if m = 2 then (if isLeapYear y then 29 else 28)
  else if m = 4 ∨ m = 6 ∨ m = 9 ∨ m = 11 then 30
  else 31

/-- A valid calendar date within the range datetime supports. -/
def validYMD (y m d : Nat) : Prop :=
  1 ≤ y ∧ y ≤ 9999 ∧ 1 ≤ m ∧ m ≤ 12 ∧ 1 ≤ d ∧ d ≤ gregDaysInMonth y m

instance (y m d : Nat) : Decidable (validYMD y m d) := by
  unfold validYMD; infer_instance

/-- Parse a day-month-year date with the given separator, validating the
calendar as datetime.strptime does. -/
def parseDateDMY (sep : Char) (s : String) : Option (Nat × Nat × Nat) :=
  match splitOnChar sep s.data with
  | [ds, ms, ys] =>
    if 1 ≤ ds.length ∧ ds.length ≤ 2 ∧ 1 ≤ ms.length ∧ ms.length ≤ 2
        ∧ 1 ≤ ys.length ∧ ys.length ≤ 4 then
      match digitsToNat ds, digitsToNat ms, digitsToNat ys with
      | some d, some m, some y => if validYMD y m d then some (y, m, d) else none
      | _, _, _ => none
    else none
  | _ => none

/-- Zero-pad to two digits. -/
def pad2 (n : Nat) : String :=
  if n < 10 then "0" ++ toString n else toString n

/-- Zero-pad to four digits. -/
def pad4 (n : Nat) : String :=
  if n < 10 then "000" ++ toString n
  else if n < 100 then "00" ++ toString n
  else if n < 1000 then "0" ++ toString n
  else toString n

/-- Canonical YYYY-MM-DD rendering, models strftime with that format. -/
def formatYMD (y m d : Nat) : String :=
  pad4 y ++ "-" ++ pad2 m ++ "-" ++ pad2 d

/-- Day number of a Gregorian date (days since 1970-01-01, the standard
civil-from-days algorithm); embeds datetime difference arithmetic. -/
def daysFromCivil (y m d : Int) : Int :=
  let y2 := if m ≤ 2 then y - 1 else y
  let era := y2.fdiv 400
  let yoe := y2 - era * 400
  let doy := (153 * (m + (if 2 < m then -3 else 9)) + 2).fdiv 5 + d - 1
  let doe := yoe * 365 + yoe.fdiv 4 - yoe.fdiv 100 + doy
  era * 146097 + doe - 719468

/-- A calendar date as datetime holds it. -/
structure CDate where
  year : Int
  month : Int
  day : Int
deriving DecidableEq

/-- Gregorian date of a day number (inverse of daysFromCivil). -/
def civilFromDays (z : Int) : CDate :=
  let z2 := z + 719468
  let era := z2.fdiv 146097
  let doe := z2 - era * 146097
  let yoe := (doe - doe.fdiv 1460 + doe.fdiv 36524 - doe.fdiv 146096).fdiv 365
  let y := yoe + era * 400
  let doy := doe - (365 * yoe + yoe.fdiv 4 - yoe.fdiv 100)
  let mp := (5 * doy + 2).fdiv 153
  let d := doy - (153 * mp + 2).fdiv 5 + 1
  let m := if mp < 10 then mp + 3 else mp - 9
  ⟨if m ≤ 2 then y + 1 else y, m, d⟩

/-! ## Rounding (Python round, banker's rounding, at 2 decimals) -/

/-- Floor of a rational as an integer. -/
def ratFloor (q : ℚ) : Int :=
  q.num.fdiv q.den

/-- Round to the nearest integer, ties to even (Python round). -/
def roundHalfEven (q : ℚ) : Int :=
  let f := ratFloor q
  let r := q - (f : ℚ)
  if r < 1 / 2 then f
  else if 1 / 2 < r then f + 1
  else if f % 2 = 0 then f else f + 1

/-- Models round(x, 2). -/
def round2 (q : ℚ) : ℚ :=
  ((roundHalfEven (q * 100) : ℚ)) / 100

/-! ## Data model: models.py Transaction -/

/-- The canonical transaction record (models.py, class Transaction). -/
structure Transaction where
  id : Option Int
  user_id : Int
  date : String
  description : Option String
  amount : ℚ
  transaction_type : String
  category : Option String
  is_recurring : Bool
  bank : String
deriving DecidableEq

/-- Equality of Except values is decidable when both components are; lets
concrete parser runs be checked by decide. -/
instance {ε α : Type} [DecidableEq ε] [DecidableEq α] : DecidableEq (Except ε α) := fun x y =>
  match x, y with
  | Except.error a, Except.error b =>
    if h : a = b then Decidable.isTrue (congrArg Except.error h)
    else Decidable.isFalse (fun hc => h (Except.error.inj hc))
  | Except.error _, Except.ok _ => Decidable.isFalse Except.noConfusion
  | Except.ok _, Except.error _ => Decidable.isFalse Except.noConfusion
  | Except.ok a, Except.ok b =>
    if h : a = b then Decidable.isTrue (congrArg Except.ok h)
    else Decidable.isFalse (fun hc => h (Except.ok.inj hc))

/-! ## Statement parser (parser.py, class StatementParser)

CSV text is decoded by pandas in the source; the embedding starts from the
decoded rows.  PDF text is decoded by pdfplumber and a per-dialect regex;
the embedding starts from the list of regex matches. -/

/-- One decoded CSV row with the canonical Date, Description, Debit, Credit
columns (for Axis these are Tran Date, Particulars, Dr Amount, Cr Amount
after the renames in parse_axis).  A blank or NaN cell is none. -/
structure CsvRow where
  date : String
  description : String
  debit : Option String
  credit : Option String
deriving DecidableEq

/-- One decoded HDFC CSV row (Date, Narration, Withdrawal Amt., Deposit Amt.
after the renames in parse_hdfc). -/
structure HdfcRow where
  date : String
  description : String
  withdrawal : Option String
  deposit : Option String
deriving DecidableEq

/-- One match of a per-dialect PDF text regex: date, description, the one or
two optional amount groups, and the balance. -/
structure PdfMatch where
  date : String
  descr : String
  f1 : Option String
  f2 : Option String
  balance : String
deriving DecidableEq

/-- The amount cell of a row: blank or NaN counts as 0.0, otherwise
float(cell), whose failure raises (parser.py lines 90-91 etc.). -/
def amountField (v : Option String) : Except String ℚ :=
  match v with
  | none => Except.ok 0
  | some s =>
    if s = "" then Except.ok 0
    else
      match floatOfString s with
      | some q => Except.ok q
      | none => Except.error ("could not convert string to float: " ++ s)

/-- strptime with a one-separator day-month-year format followed by
strftime to canonical form; failure raises ValueError. -/
def parseDateField (sep : Char) (s : String) : Except String String :=
  match parseDateDMY sep s with
  | some (y, m, d) => Except.ok (formatYMD y m d)
  | none => Except.error ("time data " ++ s ++ " does not match format")

/-- Axis CSV dates: try DD-MM-YYYY first, fall back to DD/MM/YYYY
(parser.py lines 237-240). -/
def parseAxisDate (s : String) : Except String String :=
  match parseDateDMY '-' s with
  | some (y, m, d) => Except.ok (formatYMD y m d)
  | none => parseDateField '/' s

/-- parse_sbi, CSV branch, one row (parser.py lines 86-107). -/
def parse_sbi_row (u : Int) (r : CsvRow) : Except String Transaction :=
  match parseDateField '/' r.date with
  | Except.error e => Except.error e
  | Except.ok d =>
    match amountField r.debit with
    | Except.error e => Except.error e
    | Except.ok debit =>
      match amountField r.credit with
      | Except.error e => Except.error e
      | Except.ok credit =>
        if 0 < debit then
          Except.ok { id := none, user_id := u, date := d,
                      description := some (trimStr r.description), amount := debit,
                      transaction_type := "debit", category := none,
                      is_recurring := false, bank := "sbi" }
        else
          Except.ok { id := none, user_id := u, date := d,
                      description := some (trimStr r.description), amount := credit,
                      transaction_type := "credit", category := none,
                      is_recurring := false, bank := "sbi" }

/-- parse_hdfc, CSV branch, one row (parser.py lines 160-181). -/
def parse_hdfc_row (u : Int) (r : HdfcRow) : Except String Transaction :=
  match parseDateField '/' r.date with
  | Except.error e => Except.error e
  | Except.ok d =>
    match amountField r.withdrawal with
    | Except.error e => Except.error e
    | Except.ok w =>
      match amountField r.deposit with
      | Except.error e => Except.error e
      | Except.ok dep =>
        if 0 < w then
          Except.ok { id := none, user_id := u, date := d,
                      description := some (trimStr r.description), amount := w,
                      transaction_type := "debit", category := none,
                      is_recurring := false, bank := "hdfc" }
        else
          Except.ok { id := none, user_id := u, date := d,
                      description := some (trimStr r.description), amount := dep,
                      transaction_type := "credit", category := none,
                      is_recurring := false, bank := "hdfc" }

/-- parse_axis, CSV branch, one row (parser.py lines 235-259). -/
def parse_axis_row (u : Int) (r : CsvRow) : Except String Transaction :=
  match parseAxisDate r.date with
  | Except.error e => Except.error e
  | Except.ok d =>
    match amountField r.debit with
    | Except.error e => Except.error e
    | Except.ok debit =>
      match amountField r.credit with
      | Except.error e => Except.error e
      | Except.ok credit =>
        if 0 < debit then
          Except.ok { id := none, user_id := u, date := d,
                      description := some (trimStr r.description), amount := debit,
                      transaction_type := "debit", category := none,
                      is_recurring := false, bank := "axis" }
        else
          Except.ok { id := none, user_id := u, date := d,
                      description := some (trimStr r.description), amount := credit,
                      transaction_type := "credit", category := none,
                      is_recurring := false, bank := "axis" }

/-- The per-row loop shared by every CSV branch: an exception raised while
converting a row propagates, so the first failing row aborts the whole
statement and nothing is returned. -/
def parseRowsFold {ρ : Type} (f : ρ → Except String Transaction) :
    List ρ → Except String (List Transaction)
  | [] => Except.ok []
  | r :: rs =>
    match f r with
    | Except.error e => Except.error e
    | Except.ok t =>
      match parseRowsFold f rs with
      | Except.error e => Except.error e
      | Except.ok ts => Except.ok (t :: ts)

/-- parse_sbi over the decoded CSV rows. -/
def parse_sbi_rows (u : Int) (rows : List CsvRow) : Except String (List Transaction) :=
  parseRowsFold (parse_sbi_row u) rows

/-- parse_hdfc over the decoded CSV rows. -/
def parse_hdfc_rows (u : Int) (rows : List HdfcRow) : Except String (List Transaction) :=
  parseRowsFold (parse_hdfc_row u) rows

/-- parse_axis over the decoded CSV rows. -/
def parse_axis_rows (u : Int) (rows : List CsvRow) : Except String (List Transaction) :=
  parseRowsFold (parse_axis_row u) rows

/-- parse_sbi, PDF branch, one regex match (parser.py lines 58-81); the SBI
pattern captures both amount groups, so a missing group does not occur and
is read as 0.00 here. -/
def parse_sbi_match (u : Int) (m : PdfMatch) : Except String Transaction :=
  match parseDateField '/' m.date with
  | Except.error e => Except.error e
  | Except.ok d =>
    match amountField (some (m.f1.getD "0.00")) with
    | Except.error e => Except.error e
    | Except.ok debit =>
      match amountField (some (m.f2.getD "0.00")) with
      | Except.error e => Except.error e
      | Except.ok credit =>
        if 0 < debit then
          Except.ok { id := none, user_id := u, date := d,
                      description := some (trimStr m.descr), amount := debit,
                      transaction_type := "debit", category := none,
                      is_recurring := false, bank := "sbi" }
        else
          Except.ok { id := none, user_id := u, date := d,
                      description := some (trimStr m.descr), amount := credit,
                      transaction_type := "credit", category := none,
                      is_recurring := false, bank := "sbi" }

/-- parse_hdfc, PDF branch, one regex match (parser.py lines 121-147):
missing optional groups are read as 0.00. -/
def parse_hdfc_match (u : Int) (m : PdfMatch) : Except String Transaction :=
  match parseDateField '/' m.date with
  | Except.error e => Except.error e
  | Except.ok d =>
    match amountField (some (m.f1.getD "0.00")) with
    | Except.error e => Except.error e
    | Except.ok w =>
      match amountField (some (m.f2.getD "0.00")) with
      | Except.error e => Except.error e
      | Except.ok dep =>
        if 0 < w then
          Except.ok { id := none, user_id := u, date := d,
                      description := some (trimStr m.descr), amount := w,
                      transaction_type := "debit", category := none,
                      is_recurring := false, bank := "hdfc" }
        else
          Except.ok { id := none, user_id := u, date := d,
                      description := some (trimStr m.descr), amount := dep,
                      transaction_type := "credit", category := none,
                      is_recurring := false, bank := "hdfc" }

/-- parse_axis, PDF branch, one regex match (parser.py lines 195-221). -/
def parse_axis_match (u : Int) (m : PdfMatch) : Except String Transaction :=
  match parseDateField '-' m.date with
  | Except.error e => Except.error e
  | Except.ok d =>
    match amountField (some (m.f1.getD "0.00")) with
    | Except.error e => Except.error e
    | Except.ok debit =>
      match amountField (some (m.f2.getD "0.00")) with
      | Except.error e => Except.error e
      | Except.ok credit =>
        if 0 < debit then
          Except.ok { id := none, user_id := u, date := d,
                      description := some (trimStr m.descr), amount := debit,
                      transaction_type := "debit", category := none,
                      is_recurring := false, bank := "axis" }
        else
          Except.ok { id := none, user_id := u, date := d,
                      description := some (trimStr m.descr), amount := credit,
                      transaction_type := "credit", category := none,
                      is_recurring := false, bank := "axis" }

/-- The dispatch table keys, in insertion order (parser.py lines 11-15). -/
def supported_banks : List String := ["sbi", "hdfc", "axis"]

/-- A statement file after the external decoding collaborators ran:
pdfplumber text already matched by the dialect regex, and pandas CSV rows
already mapped onto each dialect's column schema. -/
structure FileData where
  pdfMatches : List PdfMatch
  sbiRows : List CsvRow
  hdfcRows : List HdfcRow
  axisRows : List CsvRow
deriving DecidableEq

/-- StatementParser.parse (parser.py lines 17-46): lower-case the bank name,
reject unknown banks naming the supported set, dispatch on the file
extension, reject unknown extensions. -/
def parse (file_path bank_name : String) (u : Int) (data : FileData) :
    Except String (List Transaction) :=
  let b := lowerStr bank_name
  if supported_banks.contains b = false then
    Except.error ("Unsupported bank: " ++ b ++ ". Supported banks: sbi, hdfc, axis")
  else if strEndsWith file_path ".pdf" then
    if b = "sbi" then parseRowsFold (parse_sbi_match u) data.pdfMatches
    else if b = "hdfc" then parseRowsFold (parse_hdfc_match u) data.pdfMatches
    else parseRowsFold (parse_axis_match u) data.pdfMatches
  else if strEndsWith file_path ".csv" then
    if b = "sbi" then parse_sbi_rows u data.sbiRows
    else if b = "hdfc" then parse_hdfc_rows u data.hdfcRows
    else parse_axis_rows u data.axisRows
  else
    Except.error "Unsupported file format. Only PDF and CSV are supported."

/-! ## Categorizer (categorizer.py, class TransactionCategorizer)

Every pattern in the rules table is a regex-metacharacter-free literal, so
re.search is substring search on the lower-cased description.  The learned
tier (TF-IDF vectorizer plus random-forest classifier) is an externally
trained artifact: it enters the embedding as an opaque prediction
function. -/

/-- The fixed closed category set (categorizer.py lines 21-25). -/
def categories : List String :=
  ["food", "transportation", "shopping", "utilities",
   "entertainment", "health", "education", "travel",
   "housing", "income", "investment", "bills", "other"]

/-- The rule table in its insertion order (categorizer.py lines 27-84). -/
def rules : List (String × List String) :=
  [("food",
    ["swiggy", "zomato", "uber eats", "dominos", "pizza",
     "restaurant", "cafe", "coffee", "food", "grocery",
     "supermarket", "kirana", "bigbasket", "milk", "vegetable"]),
   ("transportation",
    ["uber", "ola", "cab", "taxi", "auto", "metro", "train",
     "bus", "petrol", "diesel", "fuel", "parking", "rapido"]),
   ("shopping",
    ["amazon", "flipkart", "myntra", "ajio", "nykaa", "shop",
     "store", "mall", "market", "purchase", "buy", "retail"]),
   ("utilities",
    ["electricity", "water", "gas", "bill", "recharge",
     "mobile", "phone", "internet", "broadband", "wifi",
     "postpaid", "prepaid", "dth", "utility", "jio", "airtel", "vi",
     "tata power", "bses", "mahanagar gas"]),
   ("entertainment",
    ["movie", "netflix", "prime", "hotstar", "disney", "zee5",
     "sonyliv", "theatre", "cinema", "ticket", "concert", "show",
     "spotify", "gaana", "wynk", "music"]),
   ("health",
    ["hospital", "doctor", "clinic", "medical", "medicine",
     "pharmacy", "health", "dental", "eye", "apollo", "max",
     "medplus", "netmeds", "pharmeasy", "1mg"]),
   ("education",
    ["school", "college", "university", "course", "class",
     "tuition", "fee", "book", "stationery", "udemy", "coursera",
     "edx", "byju", "unacademy", "education"]),
   ("travel",
    ["flight", "air", "indigo", "spicejet", "hotel", "resort",
     "booking", "makemytrip", "goibibo", "oyo", "travel", "tour",
     "holiday", "vacation", "irctc", "railway"]),
   ("housing",
    ["rent", "maintenance", "society", "apartment", "flat",
     "house", "property", "loan", "emi", "mortgage", "realty"]),
   ("income",
    ["salary", "income", "payment received", "stipend", "bonus",
     "interest", "dividend", "refund", "reimbursement", "credit"]),
   ("investment",
    ["mutual fund", "share", "stock", "bond", "debenture", "fd",
     "fixed deposit", "gold", "zerodha", "upstox", "groww",
     "investment", "sip", "etf", "nps", "ppf"]),
   ("bills",
    ["bill payment", "due", "invoice", "subscription", "insurance",
     "premium", "tax", "gst", "emi", "installment", "payment"])]

/-- _rule_based_categorize (categorizer.py lines 107-119): a falsy
description yields the label other, otherwise the first category in table
order with a matching pattern, and Python None (here none) if no rule
matches. -/
def rule_based_categorize (description : Option String) : Option String :=
  match description with
  | none => some "other"
  | some d =>
    if d = "" then some "other"
    else
      let dl := lowerStr d
      rules.findSome? (fun cp =>
        if cp.2.any (fun pat => reSearch pat dl) then some cp.1 else none)

/-- _ml_based_categorize (categorizer.py lines 121-132): other when the
model is not ready or the description is falsy, else the model prediction
on the description (preprocessing, vectorizing and predicting are the
external artifact, abstracted as the predict parameter). -/
def ml_based_categorize (predict : String → String) (model_ready : Bool)
    (description : Option String) : String :=
  if model_ready = false then "other"
  else
    match description with
    | none => "other"
    | some d => if d = "" then "other" else predict d

/-- categorize (categorizer.py lines 134-147): rule tier first, then the
learned tier when no rule matched and the model is ready, else other; the
chosen label is written into the transaction's category field. -/
def categorize (predict : String → String) (model_ready : Bool)
    (t : Transaction) : Transaction :=
  let category := rule_based_categorize t.description
  let c :=
    match category with
    | some c0 => c0
    | none =>
      if model_ready then ml_based_categorize predict model_ready t.description
      else "other"
  { t with category := some c }

/-- bulk_categorize (categorizer.py lines 210-218). -/
def bulk_categorize (predict : String → String) (model_ready : Bool)
    (ts : List Transaction) : List Transaction :=
  ts.map (categorize predict model_ready)

/-- The categorizer's mutable model state (vectorizer, model, model_ready),
polymorphic over the externally defined artifact types. -/
structure MLState (V M : Type) where
  vectorizer : Option V
  model : Option M
  model_ready : Bool

/-- The training descriptions train_model collects: one entry per
transaction with a truthy description (categorizer.py lines 167-180). -/
def train_descriptions (txs : List Transaction) : List String :=
  txs.filterMap (fun t =>
    match t.description with
    | some d => if d = "" then none else some d
    | none => none)

/-- The label a transaction gets while training: the supplied label when
its id is in the labels mapping, else the rule tier's output, else other. -/
def train_label (labels : List (Int × String)) (t : Transaction) (d : String) : String :=
  match t.id.bind (fun i => (labels.find? (fun p => p.1 == i)).map (fun p => p.2)) with
  | some lab => lab
  | none => (rule_based_categorize (some d)).getD "other"

/-- The training labels, parallel to train_descriptions. -/
def train_categories (labels : List (Int × String)) (txs : List Transaction) : List String :=
  txs.filterMap (fun t =>
    match t.description with
    | some d => if d = "" then none else some (train_label labels t d)
    | none => none)

/-- train_model (categorizer.py lines 162-208): with fewer than 20 usable
descriptions it prints a message and returns False before touching any
state; otherwise the external fit (train/test split, TF-IDF, random
forest, pickling) produces fresh artifacts and model_ready becomes true. -/
def train_model (V M : Type) (fit : List String → List String → V × M)
    (st : MLState V M) (txs : List Transaction) (labels : List (Int × String)) :
    Bool × MLState V M :=
  let descriptions := train_descriptions txs
  let cats := train_categories labels txs
  if descriptions.length < 20 then (false, st)
  else
    let vm := fit descriptions cats
    (true, { vectorizer := some vm.1, model := some vm.2, model_ready := true })

/-! ## Analytics engine (analyzer.py, class FinancialAnalyzer)

The engine works on the DataFrame built in _create_dataframe; a row of that
frame is a DfRow.  The date column holds pandas timestamps, embedded as
Gregorian day numbers so that subtraction in days and month labels are
exact. -/

/-- One row of the analyzer's DataFrame (analyzer.py lines 13-40); records
reaching the engine were loaded from the store and carry numeric ids. -/
structure DfRow where
  id : Int
  date : Int
  description : String
  amount : ℚ
  type : String
  category : String
  is_recurring : Bool
deriving DecidableEq

/-- The (description, amount) group of a transaction: the rows the pandas
groupby on those two keys puts in the same group. -/
def recurring_group (txs : List DfRow) (t : DfRow) : List DfRow :=
  txs.filter (fun s => decide (s.description = t.description ∧ s.amount = t.amount))

/-- Insert into a list sorted by the given comparison. -/
def insertLe {α : Type} (le : α → α → Bool) (x : α) : List α → List α
  | [] => [x]
  | y :: ys => if le x y then x :: y :: ys else y :: insertLe le x ys

/-- Insertion sort by the given comparison. -/
def sortLe {α : Type} (le : α → α → Bool) : List α → List α
  | [] => []
  | x :: xs => insertLe le x (sortLe le xs)

/-- Sort day numbers ascending (sort_values on the date column). -/
def sortDates (ds : List Int) : List Int :=
  sortLe (fun a b => decide (a ≤ b)) ds

/-- Is some chronologically adjacent pair of the ascending date list within
the window (analyzer.py lines 158-163)? -/
def hasCloseAdjacent (win : Int) : List Int → Bool
  | a :: b :: rest => (b - a ≤ win : Bool) || hasCloseAdjacent win (b :: rest)
  | _ => false

/-- Does the transaction's (description, amount) group qualify as
recurring: size at least min_occurrences and some adjacent pair of sorted
dates within the window (analyzer.py lines 151-163)? -/
def group_qualifies (minOcc : Nat) (win : Int) (txs : List DfRow) (t : DfRow) : Bool :=
  decide (minOcc ≤ (recurring_group txs t).length) &&
    hasCloseAdjacent win (sortDates ((recurring_group txs t).map (fun s => s.date)))

/-- The ids collected from every qualifying group (analyzer.py lines
149-166): exactly the ids of transactions whose own group qualifies. -/
def recurring_ids (minOcc : Nat) (win : Int) (txs : List DfRow) : List Int :=
  (txs.filter (group_qualifies minOcc win txs)).map (fun t => t.id)

/-- Set is_recurring to true. -/
def markRecurring (t : DfRow) : DfRow :=
  { t with is_recurring := true }

/-- identify_recurring_transactions (analyzer.py lines 142-174): mark every
transaction whose id was collected and return the full collection. -/
def identify_recurring_transactions (txs : List DfRow) (minOcc : Nat) (win : Int) :
    List DfRow :=
  txs.map (fun t => if t.id ∈ recurring_ids minOcc win txs then markRecurring t else t)

/-- The rows of one category (the category_df of detect_anomalies). -/
def cat_group (txs : List DfRow) (c : String) : List DfRow :=
  txs.filter (fun r => decide (r.category = c))

/-- Mean of the amount column. -/
def amountMean (g : List DfRow) : ℚ :=
  ((g.map (fun r => r.amount)).sum) / (g.length : ℚ)

/-- Sum of squared deviations of the amount column from its mean; the
pandas sample standard deviation (ddof 1) is sqrt of this over length - 1,
and it is zero exactly when this sum is zero. -/
def amountSqDev (g : List DfRow) : ℚ :=
  (g.map (fun r => (r.amount - amountMean g) ^ 2)).sum

/-- The square of the z-score (amount - mean) / std with the sample
standard deviation; kept squared to stay inside the rationals.  For the
nonnegative thresholds the engine is called with, abs z over threshold is
the same test as z squared over threshold squared. -/
def zScoreSq (g : List DfRow) (x : ℚ) : ℚ :=
  (x - amountMean g) ^ 2 / (amountSqDev g / ((g.length : ℚ) - 1))

/-- One reported anomaly (analyzer.py lines 199-206); the reported z-score
is the square root of zsq, carried squared in the embedding. -/
structure AnomalyRec where
  id : Int
  date : Int
  description : String
  amount : ℚ
  category : String
  zsq : ℚ
deriving DecidableEq

/-- detect_anomalies (analyzer.py lines 176-208): per category in order of
first appearance, skip categories with at most one row or zero standard
deviation, and report each row whose absolute z-score exceeds the
threshold. -/
def detect_anomalies (txs : List DfRow) (z : ℚ) : List AnomalyRec :=
  ((txs.map (fun r => r.category)).dedup).flatMap (fun c =>
    let g := cat_group txs c
    if g.length ≤ 1 then []
    else if amountSqDev g = 0 then []
    else
      g.filterMap (fun r =>
        if z ^ 2 < zScoreSq g r.amount then
          some { id := r.id, date := r.date, description := r.description,
                 amount := round2 r.amount, category := c,
                 zsq := zScoreSq g r.amount }
        else none))

/-- The claim's flagging condition, stated per row: its category group has
at least two rows, non-zero variance, and the row's z-score exceeds the
threshold in absolute value (squared form). -/
def anomaly_flagged (txs : List DfRow) (z : ℚ) (r : DfRow) : Prop :=
  2 ≤ (cat_group txs r.category).length ∧
    amountSqDev (cat_group txs r.category) ≠ 0 ∧
    z ^ 2 < zScoreSq (cat_group txs r.category) r.amount

/-- The anomaly record detect_anomalies builds for a flagged row. -/
def anomaly_of (txs : List DfRow) (r : DfRow) : AnomalyRec :=
  { id := r.id, date := r.date, description := r.description,
    amount := round2 r.amount, category := r.category,
    zsq := zScoreSq (cat_group txs r.category) r.amount }

/-- Lexicographic comparison of character lists. -/
def charListLe : List Char → List Char → Bool
  | [], _ => true
  | _ :: _, [] => false
  | a :: as, b :: bs => if a = b then charListLe as bs else decide (a < b)

/-- Lexicographic comparison of strings (pandas groupby iterates groups in
sorted key order). -/
def strLe (a b : String) : Bool :=
  charListLe a.data b.data

/-- The month label of a day number, as the pair (year, month); embeds the
string column produced by strftime with format %Y-%m. -/
def monthOfDay (z : Int) : Int × Int :=
  let c := civilFromDays z
  (c.year, c.month)

/-- days_in_month as the code computes it (analyzer.py lines 217-218):
first of the month with index month + 1 when month < 12, else January OF
THE SAME YEAR, minus the first of the current month. -/
def days_in_month_code (today : CDate) : Int :=
  daysFromCivil today.year (if today.month < 12 then today.month + 1 else 1) 1 -
    daysFromCivil today.year today.month 1

/-- One projection record (analyzer.py lines 250-255 and 268-273);
possible_overshoot is int(bool), so 0 or 1. -/
structure ProjRec where
  current_spent : ℚ
  projected_amount : ℚ
  previous_month : ℚ
  possible_overshoot : Int
deriving DecidableEq

/-- project_monthly_spending (analyzer.py lines 210-275), parameterized by
the wall-clock date datetime.now() returns.  Categories iterate in sorted
order (pandas groupby), the total entry comes last, and the month 30 days
back supplies the baseline. -/
def project_monthly_spending (txs : List DfRow) (today : CDate) :
    List (String × ProjRec) :=
  if txs.isEmpty then []
  else
    let dim := days_in_month_code today
    let elapsed : Int := today.day
    let remaining := dim - elapsed
    let curLabel := (today.year, today.month)
    let curr := txs.filter (fun r => decide (monthOfDay r.date = curLabel ∧ r.type = "debit"))
    if curr.isEmpty then []
    else
      let prevDate := civilFromDays (daysFromCivil today.year today.month today.day - 30)
      let prevLabel := (prevDate.year, prevDate.month)
      let cats := sortLe strLe ((curr.map (fun r => r.category)).dedup)
      let perCat := cats.map (fun c =>
        let amount := ((curr.filter (fun r => decide (r.category = c))).map
          (fun r => r.amount)).sum
        let dailyAvg := amount / (elapsed : ℚ)
        let projected := amount + dailyAvg * (remaining : ℚ)
        let prev := ((txs.filter (fun r =>
          decide (monthOfDay r.date = prevLabel ∧ r.category = c ∧ r.type = "debit"))).map
          (fun r => r.amount)).sum
        let overshoot : Int :=
          if 0 < prev then (if prev * (1.2 : ℚ) < projected then 1 else 0) else 0
        (c, { current_spent := round2 amount, projected_amount := round2 projected,
              previous_month := round2 prev, possible_overshoot := overshoot }))
      let totalSpent := (curr.map (fun r => r.amount)).sum
      let totalProjected := totalSpent / (elapsed : ℚ) * (dim : ℚ)
      let prevTotal := ((txs.filter (fun r =>
        decide (monthOfDay r.date = prevLabel ∧ r.type = "debit"))).map
        (fun r => r.amount)).sum
      let totalOvershoot : Int :=
        if 0 < prevTotal then (if prevTotal * (1.1 : ℚ) < totalProjected then 1 else 0) else 0
      perCat ++ [("total", { current_spent := round2 totalSpent,
                             projected_amount := round2 totalProjected,
                             previous_month := round2 prevTotal,
                             possible_overshoot := totalOvershoot })]

/-! ## Spec-side relations the claims are checked against -/

/-- What the spec asks of a transaction parsed from one SBI CSV row: the
date and both amount cells convert, the description is whitespace-trimmed,
and amount/type come from the Debit column when it is positive (debit
priority), from the Credit column otherwise. -/
def sbi_row_shape (u : Int) (r : CsvRow) (t : Transaction) : Prop :=
  ∃ ds dq cq, parseDateField '/' r.date = Except.ok ds ∧
    amountField r.debit = Except.ok dq ∧
    amountField r.credit = Except.ok cq ∧
    t.id = none ∧ t.user_id = u ∧ t.date = ds ∧
    t.description = some (trimStr r.description) ∧
    t.category = none ∧ t.is_recurring = false ∧ t.bank = "sbi" ∧
    (0 < dq → t.amount = dq ∧ t.transaction_type = "debit") ∧
    (¬ 0 < dq → t.amount = cq ∧ t.transaction_type = "credit")

/-- The same shape for one HDFC CSV row (Withdrawal/Deposit columns). -/
def hdfc_row_shape (u : Int) (r : HdfcRow) (t : Transaction) : Prop :=
  ∃ ds wq dq, parseDateField '/' r.date = Except.ok ds ∧
    amountField r.withdrawal = Except.ok wq ∧
    amountField r.deposit = Except.ok dq ∧
    t.id = none ∧ t.user_id = u ∧ t.date = ds ∧
    t.description = some (trimStr r.description) ∧
    t.category = none ∧ t.is_recurring = false ∧ t.bank = "hdfc" ∧
    (0 < wq → t.amount = wq ∧ t.transaction_type = "debit") ∧
    (¬ 0 < wq → t.amount = dq ∧ t.transaction_type = "credit")

/-- The same shape for one Axis CSV row (date fallback format included). -/
def axis_row_shape (u : Int) (r : CsvRow) (t : Transaction) : Prop :=
  ∃ ds dq cq, parseAxisDate r.date = Except.ok ds ∧
    amountField r.debit = Except.ok dq ∧
    amountField r.credit = Except.ok cq ∧
    t.id = none ∧ t.user_id = u ∧ t.date = ds ∧
    t.description = some (trimStr r.description) ∧
    t.category = none ∧ t.is_recurring = false ∧ t.bank = "axis" ∧
    (0 < dq → t.amount = dq ∧ t.transaction_type = "debit") ∧
    (¬ 0 < dq → t.amount = cq ∧ t.transaction_type = "credit")

/-! ## Concrete inputs for witnesses and counterexamples -/

/-- An SBI credit row from the format example in parser.py. -/
def sbiCreditRow : CsvRow :=
  { date := "01/04/2023", description := "SALARY",
    debit := some "0.00", credit := some "50000.00" }

/-- The transaction sbiCreditRow parses to. -/
def sbiCreditTx : Transaction :=
  { id := none, user_id := 1, date := "2023-04-01", description := some "SALARY",
    amount := 50000, transaction_type := "credit", category := none,
    is_recurring := false, bank := "sbi" }

/-- An SBI debit row with untrimmed description whitespace. -/
def sbiDebitRow : CsvRow :=
  { date := "05/04/2023", description := "  ELECTRICITY BILL ",
    debit := some "2500.00", credit := some "0.00" }

/-- The transaction sbiDebitRow parses to. -/
def sbiDebitTx : Transaction :=
  { id := none, user_id := 1, date := "2023-04-05",
    description := some "ELECTRICITY BILL", amount := 2500,
    transaction_type := "debit", category := none,
    is_recurring := false, bank := "sbi" }

/-- An HDFC credit row with a blank withdrawal cell. -/
def hdfcCreditRow : HdfcRow :=
  { date := "01/04/2023", description := "SALARY",
    withdrawal := none, deposit := some "50000.00" }

/-- The transaction hdfcCreditRow parses to. -/
def hdfcCreditTx : Transaction :=
  { id := none, user_id := 1, date := "2023-04-01", description := some "SALARY",
    amount := 50000, transaction_type := "credit", category := none,
    is_recurring := false, bank := "hdfc" }

/-- An SBI row whose date matches no calendar date. -/
def sbiBadDateRow : CsvRow :=
  { date := "99/99/2023", description := "JUNK",
    debit := some "10.00", credit := some "0.00" }

/-- An Axis credit row in the dialect's dash date format. -/
def axisCreditRow : CsvRow :=
  { date := "01-04-2023", description := "SALARY",
    debit := none, credit := some "50000.00" }

/-- The transaction axisCreditRow parses to. -/
def axisCreditTx : Transaction :=
  { id := none, user_id := 1, date := "2023-04-01", description := some "SALARY",
    amount := 50000, transaction_type := "credit", category := none,
    is_recurring := false, bank := "axis" }

/-- An Axis row whose date fails both date formats (November 31st). -/
def axisBadDateRow : CsvRow :=
  { date := "31/11/2023", description := "JUNK",
    debit := some "10.00", credit := some "0.00" }

/-- An SBI row whose Debit and Credit are both zero. -/
def sbiZeroRow : CsvRow :=
  { date := "01/04/2023", description := "FEE",
    debit := some "0.00", credit := some "0.00" }

/-- A statement file with no decoded content. -/
def emptyFileData : FileData :=
  { pdfMatches := [], sbiRows := [], hdfcRows := [], axisRows := [] }

/-- The recurrence example of the spec: identical description and amount on
2024-01-05, 2024-02-10 (36 days apart) and 2024-06-01 (112 days further). -/
def netflixRows : List DfRow :=
  [{ id := 1, date := daysFromCivil 2024 1 5, description := "NETFLIX",
     amount := 499, type := "debit", category := "entertainment", is_recurring := false },
   { id := 2, date := daysFromCivil 2024 2 10, description := "NETFLIX",
     amount := 499, type := "debit", category := "entertainment", is_recurring := false },
   { id := 3, date := daysFromCivil 2024 6 1, description := "NETFLIX",
     amount := 499, type := "debit", category := "entertainment", is_recurring := false }]

/-- The anomaly example of the spec: one category with amounts
100, 102, 98, 500. -/
def anomFourRows : List DfRow :=
  [{ id := 1, date := daysFromCivil 2024 1 1, description := "A",
     amount := 100, type := "debit", category := "shopping", is_recurring := false },
   { id := 2, date := daysFromCivil 2024 1 2, description := "B",
     amount := 102, type := "debit", category := "shopping", is_recurring := false },
   { id := 3, date := daysFromCivil 2024 1 3, description := "C",
     amount := 98, type := "debit", category := "shopping", is_recurring := false },
   { id := 4, date := daysFromCivil 2024 1 4, description := "D",
     amount := 500, type := "debit", category := "shopping", is_recurring := false }]

/-- A category where an outlier really does clear the threshold: five
amounts of 100 and one of 600 give the 600 row a z-score of about 2.04. -/
def anomSixRows : List DfRow :=
  [{ id := 1, date := daysFromCivil 2024 1 1, description := "A",
     amount := 100, type := "debit", category := "shopping", is_recurring := false },
   { id := 2, date := daysFromCivil 2024 1 2, description := "B",
     amount := 100, type := "debit", category := "shopping", is_recurring := false },
   { id := 3, date := daysFromCivil 2024 1 3, description := "C",
     amount := 100, type := "debit", category := "shopping", is_recurring := false },
   { id := 4, date := daysFromCivil 2024 1 4, description := "D",
     amount := 100, type := "debit", category := "shopping", is_recurring := false },
   { id := 5, date := daysFromCivil 2024 1 5, description := "E",
     amount := 100, type := "debit", category := "shopping", is_recurring := false },
   { id := 6, date := daysFromCivil 2024 1 6, description := "F",
     amount := 600, type := "debit", category := "shopping", is_recurring := false }]

/-- A December working set: one current-month debit of 300 on 2024-12-05. -/
def decemberRows : List DfRow :=
  [{ id := 1, date := daysFromCivil 2024 12 5, description := "LUNCH",
     amount := 300, type := "debit", category := "food", is_recurring := false }]

/-- An April working set matching the projection example of the spec:
current-month food spend 300, travel spend 100, and food spend 600 in the
30-days-prior month. -/
def aprilRows : List DfRow :=
  [{ id := 1, date := daysFromCivil 2025 4 5, description := "LUNCH",
     amount := 300, type := "debit", category := "food", is_recurring := false },
   { id := 2, date := daysFromCivil 2025 4 2, description := "TRIP",
     amount := 100, type := "debit", category := "travel", is_recurring := false },
   { id := 3, date := daysFromCivil 2025 3 15, description := "LUNCH",
     amount := 600, type := "debit", category := "food", is_recurring := false }]

/-! ## Helper lemmas -/

/-- A successful SBI row parse satisfies the row shape. -/
theorem parse_sbi_row_shape_of_ok (u : Int) (r : CsvRow) (t : Transaction)
    (h : parse_sbi_row u r = Except.ok t) : sbi_row_shape u r t := by
  unfold parse_sbi_row at h
  split at h
  next e hd => exact Except.noConfusion h
  next ds hd =>
    split at h
    next e hdq => exact Except.noConfusion h
    next dq hdq =>
      split at h
      next e hcq => exact Except.noConfusion h
      next cq hcq =>
        split at h
        next hpos =>
          injection h with h
          subst h
          exact ⟨ds, dq, cq, hd, hdq, hcq, rfl, rfl, rfl, rfl, rfl, rfl, rfl,
            fun _ => ⟨rfl, rfl⟩, fun hn => absurd hpos hn⟩
        next hpos =>
          injection h with h
          subst h
          exact ⟨ds, dq, cq, hd, hdq, hcq, rfl, rfl, rfl, rfl, rfl, rfl, rfl,
            fun hp => absurd hp hpos, fun _ => ⟨rfl, rfl⟩⟩

/-- A successful HDFC row parse satisfies the row shape. -/
theorem parse_hdfc_row_shape_of_ok (u : Int) (r : HdfcRow) (t : Transaction)
    (h : parse_hdfc_row u r = Except.ok t) : hdfc_row_shape u r t := by
  unfold parse_hdfc_row at h
  split at h
  next e hd => exact Except.noConfusion h
  next ds hd =>
    split at h
    next e hwq => exact Except.noConfusion h
    next wq hwq =>
      split at h
      next e hdq => exact Except.noConfusion h
      next dq hdq =>
        split at h
        next hpos =>
          injection h with h
          subst h
          exact ⟨ds, wq, dq, hd, hwq, hdq, rfl, rfl, rfl, rfl, rfl, rfl, rfl,
            fun _ => ⟨rfl, rfl⟩, fun hn => absurd hpos hn⟩
        next hpos =>
          injection h with h
          subst h
          exact ⟨ds, wq, dq, hd, hwq, hdq, rfl, rfl, rfl, rfl, rfl, rfl, rfl,
            fun hp => absurd hp hpos, fun _ => ⟨rfl, rfl⟩⟩

/-- A successful Axis row parse satisfies the row shape. -/
theorem parse_axis_row_shape_of_ok (u : Int) (r : CsvRow) (t : Transaction)
    (h : parse_axis_row u r = Except.ok t) : axis_row_shape u r t := by
  unfold parse_axis_row at h
  split at h
  next e hd => exact Except.noConfusion h
  next ds hd =>
    split at h
    next e hdq => exact Except.noConfusion h
    next dq hdq =>
      split at h
      next e hcq => exact Except.noConfusion h
      next cq hcq =>
        split at h
        next hpos =>
          injection h with h
          subst h
          exact ⟨ds, dq, cq, hd, hdq, hcq, rfl, rfl, rfl, rfl, rfl, rfl, rfl,
            fun _ => ⟨rfl, rfl⟩, fun hn => absurd hpos hn⟩
        next hpos =>
          injection h with h
          subst h
          exact ⟨ds, dq, cq, hd, hdq, hcq, rfl, rfl, rfl, rfl, rfl, rfl, rfl,
            fun hp => absurd hp hpos, fun _ => ⟨rfl, rfl⟩⟩

/-- A successful row loop pairs every input row with a transaction of the
given per-row relation. -/
theorem parseRowsFold_forall2 {ρ : Type} (f : ρ → Except String Transaction)
    (R : ρ → Transaction → Prop) (hf : ∀ r t, f r = Except.ok t → R r t) :
    ∀ rows ts, parseRowsFold f rows = Except.ok ts → List.Forall₂ R rows ts := by
  intro rows
  induction rows with
  | nil =>
    intro ts h
    unfold parseRowsFold at h
    injection h with h
    subst h
    exact List.Forall₂.nil
  | cons r rs ih =>
    intro ts h
    unfold parseRowsFold at h
    split at h
    next e he => exact Except.noConfusion h
    next t ht =>
      split at h
      next e he => exact Except.noConfusion h
      next ts2 hts =>
        injection h with h
        subst h
        exact List.Forall₂.cons (hf r t ht) (ih ts2 hts)

/-- The row loop propagates the first raised error, discarding every
already-converted transaction. -/
theorem parseRowsFold_abort {ρ : Type} (f : ρ → Except String Transaction) :
    ∀ (good : List ρ) (bad : ρ) (rest : List ρ) (e : String),
      (∀ r ∈ good, ∃ t, f r = Except.ok t) → f bad = Except.error e →
      parseRowsFold f (good ++ bad :: rest) = Except.error e := by
  intro good
  induction good with
  | nil =>
    intro bad rest e _ hbad
    simp only [List.nil_append]
    unfold parseRowsFold
    rw [hbad]
  | cons g gs ih =>
    intro bad rest e hgood hbad
    obtain ⟨t, ht⟩ := hgood g (List.mem_cons_self g gs)
    simp only [List.cons_append]
    unfold parseRowsFold
    rw [ht, ih bad rest e (fun r hr => hgood r (List.mem_cons_of_mem g hr)) hbad]

/-- A date field accepted by strptime renders as the canonical form of a
valid calendar date. -/
theorem parseDateDMY_valid (sep : Char) (s : String) (y m d : Nat)
    (h : parseDateDMY sep s = some (y, m, d)) : validYMD y m d := by
  unfold parseDateDMY at h
  split at h
  next ds ms ys =>
    split at h
    next =>
      split at h
      next d0 m0 y0 hd hm hy =>
        split at h
        next hv =>
          injection h with h
          cases h
          exact hv
        next hv => exact Option.noConfusion h
      next => exact Option.noConfusion h
    next => exact Option.noConfusion h
  next => exact Option.noConfusion h

/-- parseDateField only succeeds with the canonical rendering of a valid
calendar date. -/
theorem parseDateField_ok_canonical (sep : Char) (s ds : String)
    (h : parseDateField sep s = Except.ok ds) :
    ∃ y m d, validYMD y m d ∧ ds = formatYMD y m d := by
  unfold parseDateField at h
  split at h
  next y m d heq =>
    injection h with h
    exact ⟨y, m, d, parseDateDMY_valid sep s y m d heq, h.symm⟩
  next => exact Except.noConfusion h

/-- parseAxisDate only succeeds with the canonical rendering of a valid
calendar date (either of the two accepted formats). -/
theorem parseAxisDate_ok_canonical (s ds : String)
    (h : parseAxisDate s = Except.ok ds) :
    ∃ y m d, validYMD y m d ∧ ds = formatYMD y m d := by
  unfold parseAxisDate at h
  split at h
  next y m d heq =>
    injection h with h
    exact ⟨y, m, d, parseDateDMY_valid '-' s y m d heq, h.symm⟩
  next => exact parseDateField_ok_canonical '/' s ds h

/-- Forall₂ against a mapped copy of the same list. -/
theorem forall2_map_self {α β : Type} (P : α → β → Prop) (f : α → β) :
    ∀ l : List α, (∀ t ∈ l, P t (f t)) → List.Forall₂ P l (l.map f) := by
  intro l
  induction l with
  | nil => intro _; exact List.Forall₂.nil
  | cons x xs ih =>
    intro h
    exact List.Forall₂.cons (h x (List.mem_cons_self x xs))
      (ih (fun t ht => h t (List.mem_cons_of_mem x ht)))

/-- Membership in a category group. -/
theorem cat_group_mem (txs : List DfRow) (c : String) (r : DfRow) :
    r ∈ cat_group txs c ↔ r ∈ txs ∧ r.category = c := by
  unfold cat_group
  simp [List.mem_filter]

/-! ## Claims -/

/-- Claim C1: for every valid CSV row of a supported dialect, parse yields
exactly one transaction whose amount equals whichever of the Debit/Credit
columns is non-zero and whose type matches that column, with debit taking
priority when both columns are positive, and with the description
whitespace-trimmed (Forall₂ pairs each row with exactly one transaction of
the required shape). -/
theorem parse_csv_rows_amount_type (u : Int) (rows : List CsvRow)
    (hrows : List HdfcRow) (ts us : List Transaction)
    (hs : parse_sbi_rows u rows = Except.ok ts)
    (hh : parse_hdfc_rows u hrows = Except.ok us) :
    List.Forall₂ (sbi_row_shape u) rows ts ∧ List.Forall₂ (hdfc_row_shape u) hrows us :=
  ⟨parseRowsFold_forall2 _ _ (parse_sbi_row_shape_of_ok u) rows ts hs,
   parseRowsFold_forall2 _ _ (parse_hdfc_row_shape_of_ok u) hrows us hh⟩

/-- Witness for C1 at a concrete SBI statement of two rows and a concrete
HDFC statement of one row. -/
theorem parse_csv_rows_amount_type_example :
    List.Forall₂ (sbi_row_shape 1) [sbiCreditRow, sbiDebitRow] [sbiCreditTx, sbiDebitTx] ∧
    List.Forall₂ (hdfc_row_shape 1) [hdfcCreditRow] [hdfcCreditTx] :=
  parse_csv_rows_amount_type 1 [sbiCreditRow, sbiDebitRow] [hdfcCreditRow]
    [sbiCreditTx, sbiDebitTx] [hdfcCreditTx] (by decide) (by decide)

/-- Claim C2 (amended): a malformed row raises, and the exception aborts
the entire statement, so none of the transactions parsed from preceding
rows is preserved; the error message names the offending value but no row
index. -/
theorem parse_rows_abort_on_malformed (u : Int)
    (good : List CsvRow) (bad : CsvRow) (rest : List CsvRow) (e : String)
    (goodA : List CsvRow) (badA : CsvRow) (restA : List CsvRow) (eA : String)
    (hgood : ∀ r ∈ good, ∃ t, parse_sbi_row u r = Except.ok t)
    (hbad : parse_sbi_row u bad = Except.error e)
    (hgoodA : ∀ r ∈ goodA, ∃ t, parse_axis_row u r = Except.ok t)
    (hbadA : parse_axis_row u badA = Except.error eA) :
    parse_sbi_rows u (good ++ bad :: rest) = Except.error e ∧
    parse_axis_rows u (goodA ++ badA :: restA) = Except.error eA :=
  ⟨parseRowsFold_abort _ good bad rest e hgood hbad,
   parseRowsFold_abort _ goodA badA restA eA hgoodA hbadA⟩

/-- Witness for C2 (amended) at concrete two-row statements whose second
row has an invalid date. -/
theorem parse_rows_abort_on_malformed_example :
    parse_sbi_rows 1 [sbiCreditRow, sbiBadDateRow] =
      Except.error "time data 99/99/2023 does not match format" ∧
    parse_axis_rows 1 [axisCreditRow, axisBadDateRow] =
      Except.error "time data 31/11/2023 does not match format" :=
  parse_rows_abort_on_malformed 1 [sbiCreditRow] sbiBadDateRow [] _
    [axisCreditRow] axisBadDateRow [] _
    (fun r hr => by
      simp only [List.mem_singleton] at hr
      subst hr
      exact ⟨sbiCreditTx, by decide⟩)
    (by decide)
    (fun r hr => by
      simp only [List.mem_singleton] at hr
      subst hr
      exact ⟨axisCreditTx, by decide⟩)
    (by decide)

/-- Counterexample to C2 as stated: the first row alone parses to a
transaction, but with a malformed second row the whole parse returns only
an error, so the transaction already parsed from the preceding row is not
preserved. -/
theorem parse_rows_malformed_loses_prefix :
    parse_sbi_rows 1 [sbiCreditRow] = Except.ok [sbiCreditTx] ∧
    parse_sbi_rows 1 [sbiCreditRow, sbiBadDateRow] =
      Except.error "time data 99/99/2023 does not match format" := by
  exact ⟨by decide, by decide⟩

/-- Claim C3 (amended): a transaction from a CSV row whose Debit/Credit
cells parse to nonnegative values has a nonnegative amount, a positive
amount whenever one of the columns is positive, and a date that is the
canonical YYYY-MM-DD rendering of a valid calendar date; a row with both
columns zero still produces a transaction (of amount zero). -/
theorem parser_nonneg_amount_canonical_date (u : Int) (r ra : CsvRow)
    (t ta : Transaction) (dq cq daq caq : ℚ)
    (ht : parse_sbi_row u r = Except.ok t)
    (hd : amountField r.debit = Except.ok dq) (_hd0 : 0 ≤ dq)
    (hc : amountField r.credit = Except.ok cq) (hc0 : 0 ≤ cq)
    (hta : parse_axis_row u ra = Except.ok ta)
    (hda : amountField ra.debit = Except.ok daq) (_hda0 : 0 ≤ daq)
    (hca : amountField ra.credit = Except.ok caq) (hca0 : 0 ≤ caq) :
    (0 ≤ t.amount ∧ ((0 < dq ∨ 0 < cq) → 0 < t.amount) ∧
      ∃ y m d, validYMD y m d ∧ t.date = formatYMD y m d) ∧
    (0 ≤ ta.amount ∧ ((0 < daq ∨ 0 < caq) → 0 < ta.amount) ∧
      ∃ y m d, validYMD y m d ∧ ta.date = formatYMD y m d) := by
  obtain ⟨ds, dq2, cq2, hdate, hdq2, hcq2, _, _, hdts, _, _, _, _, hpos, hneg⟩ :=
    parse_sbi_row_shape_of_ok u r t ht
  obtain ⟨dsa, daq2, caq2, hdatea, hdaq2, hcaq2, _, _, hdtsa, _, _, _, _, hposa, hnega⟩ :=
    parse_axis_row_shape_of_ok u ra ta hta
  injection hd.symm.trans hdq2 with h1
  subst h1
  injection hc.symm.trans hcq2 with h2
  subst h2
  injection hda.symm.trans hdaq2 with h3
  subst h3
  injection hca.symm.trans hcaq2 with h4
  subst h4
  constructor
  · refine ⟨?_, ?_, ?_⟩
    · by_cases hp : 0 < dq
      · exact (hpos hp).1 ▸ le_of_lt hp
      · exact (hneg hp).1 ▸ hc0
    · intro hor
      by_cases hp : 0 < dq
      · exact (hpos hp).1 ▸ hp
      · rcases hor with hor | hor
        · exact absurd hor hp
        · exact (hneg hp).1 ▸ hor
    · obtain ⟨y, m, d, hv, hfmt⟩ := parseDateField_ok_canonical '/' r.date ds hdate
      exact ⟨y, m, d, hv, hdts.trans hfmt⟩
  · refine ⟨?_, ?_, ?_⟩
    · by_cases hp : 0 < daq
      · exact (hposa hp).1 ▸ le_of_lt hp
      · exact (hnega hp).1 ▸ hca0
    · intro hor
      by_cases hp : 0 < daq
      · exact (hposa hp).1 ▸ hp
      · rcases hor with hor | hor
        · exact absurd hor hp
        · exact (hnega hp).1 ▸ hor
    · obtain ⟨y, m, d, hv, hfmt⟩ := parseAxisDate_ok_canonical ra.date dsa hdatea
      exact ⟨y, m, d, hv, hdtsa.trans hfmt⟩

/-- Witness for C3 (amended) at a concrete SBI debit row and a concrete
Axis credit row. -/
theorem parser_nonneg_amount_canonical_date_example :
    (0 ≤ sbiDebitTx.amount ∧ ((0 < (2500 : ℚ) ∨ 0 < (0 : ℚ)) → 0 < sbiDebitTx.amount) ∧
      ∃ y m d, validYMD y m d ∧ sbiDebitTx.date = formatYMD y m d) ∧
    (0 ≤ axisCreditTx.amount ∧ ((0 < (0 : ℚ) ∨ 0 < (50000 : ℚ)) → 0 < axisCreditTx.amount) ∧
      ∃ y m d, validYMD y m d ∧ axisCreditTx.date = formatYMD y m d) :=
  parser_nonneg_amount_canonical_date 1 sbiDebitRow axisCreditRow sbiDebitTx axisCreditTx
    2500 0 0 50000 (by decide) (by decide) (by decide) (by decide) (by decide)
    (by decide) (by decide) (by decide) (by decide) (by decide)

/-- Counterexample to C3 as stated: an SBI row with Debit 0.00 and Credit
0.00 leaves the parser as a transaction with amount 0 (typed credit), so
zero-amount records do leave the Parser. -/
theorem parser_zero_amount_row_escapes :
    parse_sbi_row 1 sbiZeroRow =
      Except.ok { id := none, user_id := 1, date := "2023-04-01",
                  description := some "FEE", amount := 0,
                  transaction_type := "credit", category := none,
                  is_recurring := false, bank := "sbi" } := by
  decide

/-- Claim C7: for every bank identifier whose lower-casing is not in the
supported set, parse fails with the UnsupportedBank error naming the
supported set, and for every file whose extension is neither .pdf nor .csv
(with a supported bank), parse fails with the UnsupportedFormat error; in
both cases no transactions are produced (the result is an error, whatever
the file content). -/
theorem parse_dispatch_unsupported_errors (file_path bank_name : String)
    (u : Int) (data : FileData) :
    (supported_banks.contains (lowerStr bank_name) = false →
      parse file_path bank_name u data =
        Except.error ("Unsupported bank: " ++ lowerStr bank_name ++
          ". Supported banks: sbi, hdfc, axis")) ∧
    (supported_banks.contains (lowerStr bank_name) = true →
      strEndsWith file_path ".pdf" = false →
      strEndsWith file_path ".csv" = false →
      parse file_path bank_name u data =
        Except.error "Unsupported file format. Only PDF and CSV are supported.") := by
  constructor
  · intro hb
    unfold parse
    simp only [hb, if_true]
  · intro hb hpdf hcsv
    unfold parse
    simp only [hb, hpdf, hcsv, Bool.true_eq_false, if_false, Bool.false_eq_true]

/-- Witness for C7 at a concrete unknown bank and a concrete .txt file. -/
theorem parse_dispatch_unsupported_example :
    parse "statement.txt" "ICICI" 1 emptyFileData =
      Except.error "Unsupported bank: icici. Supported banks: sbi, hdfc, axis" ∧
    parse "statement.txt" "SBI" 1 emptyFileData =
      Except.error "Unsupported file format. Only PDF and CSV are supported." := by
  constructor
  · have h := (parse_dispatch_unsupported_errors "statement.txt" "ICICI" 1 emptyFileData).1
      (by decide)
    exact h.trans (congrArg Except.error (by decide))
  · exact (parse_dispatch_unsupported_errors "statement.txt" "SBI" 1 emptyFileData).2
      (by decide) (by decide) (by decide)

/-- Claim C4: identify_recurring_transactions groups by the exact
(description, amount) pair; every returned row differs from its input row
at most by is_recurring being set, and whenever a row's group has at least
min_occurrences members with some chronologically adjacent pair of sorted
dates within the window, that row is returned marked recurring
(whole-group policy); the full collection comes back in order, one output
row per input row. -/
theorem identify_recurring_whole_group (txs : List DfRow) (minOcc : Nat) (win : Int) :
    List.Forall₂ (fun t u =>
        (u = t ∨ u = markRecurring t) ∧
        (group_qualifies minOcc win txs t = true → u = markRecurring t))
      txs (identify_recurring_transactions txs minOcc win) := by
  unfold identify_recurring_transactions
  refine forall2_map_self _ _ txs (fun t ht => ?_)
  by_cases hmem : t.id ∈ recurring_ids minOcc win txs
  · rw [if_pos hmem]
    exact ⟨Or.inr rfl, fun _ => rfl⟩
  · rw [if_neg hmem]
    refine ⟨Or.inl rfl, fun hq => ?_⟩
    exfalso
    apply hmem
    unfold recurring_ids
    exact List.mem_map.mpr ⟨t, List.mem_filter.mpr ⟨ht, hq⟩, rfl⟩

/-- Witness for C4 at the NETFLIX example of the spec: the two close
occurrences and the far June one all come back marked recurring. -/
theorem identify_recurring_netflix_example :
    (identify_recurring_transactions netflixRows 2 45).map (fun t => t.is_recurring) =
      [true, true, true] := by
  decide

/-- Claim C5 (amended): detect_anomalies reports exactly the rows of a
category with at least two rows and non-zero variance whose z-score
exceeds the threshold in absolute value (stated squared); the spec's
[100, 102, 98, 500] example is wrong because with the sample standard
deviation a four-row category caps the z-score at 1.5, so the 500 row is
not flagged at threshold 2. -/
theorem detect_anomalies_membership (txs : List DfRow) (z : ℚ) (a : AnomalyRec) :
    a ∈ detect_anomalies txs z ↔
      ∃ r ∈ txs, anomaly_flagged txs z r ∧ a = anomaly_of txs r := by
  simp only [detect_anomalies, List.mem_flatMap, List.mem_dedup, List.mem_map]
  constructor
  · rintro ⟨c, ⟨r0, hr0, rfl⟩, hmem⟩
    by_cases h1 : (cat_group txs r0.category).length ≤ 1
    · rw [if_pos h1] at hmem
      exact absurd hmem (List.not_mem_nil a)
    rw [if_neg h1] at hmem
    by_cases h2 : amountSqDev (cat_group txs r0.category) = 0
    · rw [if_pos h2] at hmem
      exact absurd hmem (List.not_mem_nil a)
    rw [if_neg h2] at hmem
    rw [List.mem_filterMap] at hmem
    obtain ⟨r, hrg, hcond⟩ := hmem
    obtain ⟨hrtx, hrc⟩ := (cat_group_mem txs r0.category r).mp hrg
    by_cases h3 : z ^ 2 < zScoreSq (cat_group txs r0.category) r.amount
    · rw [if_pos h3] at hcond
      injection hcond with hcond
      refine ⟨r, hrtx, ?_, ?_⟩
      · unfold anomaly_flagged
        rw [hrc]
        exact ⟨by omega, h2, h3⟩
      · unfold anomaly_of
        rw [hrc]
        exact hcond.symm
    · rw [if_neg h3] at hcond
      exact Option.noConfusion hcond
  · rintro ⟨r, hr, ⟨hlen, hsd, hz⟩, rfl⟩
    refine ⟨r.category, ⟨r, hr, rfl⟩, ?_⟩
    rw [if_neg (by omega), if_neg hsd, List.mem_filterMap]
    refine ⟨r, (cat_group_mem txs r.category r).mpr ⟨hr, rfl⟩, ?_⟩
    rw [if_pos hz]
    rfl

/-- Witness for C5 (amended) at a six-row category: the only anomaly
reported for amounts 100, 100, 100, 100, 100, 600 at threshold 2 is the
600 transaction. -/
theorem detect_anomalies_six_point_example :
    (detect_anomalies anomSixRows 2).map (fun a => a.amount) = [600] := by
  decide

/-- Counterexample to C5 as stated: for the category with amounts
100, 102, 98, 500 nothing at all is flagged at threshold 2 (the 500 row's
z-score is about 1.5), so the spec's in-particular example is false. -/
theorem detect_anomalies_spec_example_not_flagged :
    anomFourRows.map (fun r => r.amount) = [100, 102, 98, 500] ∧
    detect_anomalies anomFourRows 2 = [] := by
  exact ⟨by decide, by decide⟩

/-- Claim C6 (code bug): for a December date the code computes the month
length from January of the SAME year, giving -335 instead of the actual 31,
and the projection becomes 300 - 30 * 345 = -10050 instead of the linear
extrapolation 930; in a 30-day month the code behaves as the claim says
(300 spent after 10 elapsed days projects 900, flagged against a prior
spend of 600, never flagged when the prior spend is zero). -/
theorem project_monthly_spending_december_bug :
    days_in_month_code ⟨2024, 12, 10⟩ = -335 ∧
    daysFromCivil 2025 1 1 - daysFromCivil 2024 12 1 = 31 ∧
    project_monthly_spending decemberRows ⟨2024, 12, 10⟩ =
      [("food", { current_spent := 300, projected_amount := -10050,
                  previous_month := 0, possible_overshoot := 0 }),
       ("total", { current_spent := 300, projected_amount := -10050,
                   previous_month := 0, possible_overshoot := 0 })] ∧
    project_monthly_spending aprilRows ⟨2025, 4, 10⟩ =
      [("food", { current_spent := 300, projected_amount := 900,
                  previous_month := 600, possible_overshoot := 1 }),
       ("travel", { current_spent := 100, projected_amount := 300,
                    previous_month := 0, possible_overshoot := 0 }),
       ("total", { current_spent := 400, projected_amount := 1200,
                   previous_month := 600, possible_overshoot := 1 })] := by
  refine ⟨by decide, by decide, by decide, by decide⟩

/-- Claim C8: categorize never fails and always writes a label: the
category of the result is always some label, equal to the first rule-tier
match when one exists, to the learned model's prediction when no rule
matches and the model is ready, and to other otherwise; an empty or
missing description also yields the label other. -/
theorem categorize_always_labels (predict : String → String) (mr : Bool)
    (t : Transaction) :
    ((categorize predict mr t).category).isSome = true ∧
    (categorize predict mr t).category = some (
      match rule_based_categorize t.description with
      | some c => c
      | none => if mr then ml_based_categorize predict mr t.description else "other") ∧
    (categorize predict mr { t with description := none }).category = some "other" ∧
    (categorize predict mr { t with description := some "" }).category = some "other" := by
  refine ⟨?_, ?_, rfl, rfl⟩
  · cases h : rule_based_categorize t.description <;> simp [categorize, h]
  · cases h : rule_based_categorize t.description <;> simp [categorize, h]

/-- Claim C9: train_model with fewer than 20 usable labeled descriptions
returns false and leaves the vectorizer, classifier and model-ready flag
exactly as they were. -/
theorem train_model_below_threshold_noop (V M : Type)
    (fit : List String → List String → V × M) (st : MLState V M)
    (txs : List Transaction) (labels : List (Int × String))
    (h : (train_descriptions txs).length < 20) :
    train_model V M fit st txs labels = (false, st) := by
  unfold train_model
  rw [if_pos h]

/-- Witness for C9: training on an empty transaction list leaves a loaded
state untouched and reports failure. -/
theorem train_model_below_threshold_example :
    train_model Unit Unit (fun _ _ => ((), ()))
      { vectorizer := some (), model := some (), model_ready := true } [] [] =
      (false, { vectorizer := some (), model := some (), model_ready := true }) :=
  train_model_below_threshold_noop Unit Unit (fun _ _ => ((), ()))
    { vectorizer := some (), model := some (), model_ready := true } [] [] (by decide)

/-- Claim C10: categorize mutates only the category field (id, user_id,
date, description, amount, transaction_type, is_recurring and bank are
unchanged), and bulk_categorize preserves the length and order of its
input, categorizing element-wise. -/
theorem categorize_frame_and_bulk_order (predict : String → String) (mr : Bool)
    (t : Transaction) (ts : List Transaction) :
    (categorize predict mr t).id = t.id ∧
    (categorize predict mr t).user_id = t.user_id ∧
    (categorize predict mr t).date = t.date ∧
    (categorize predict mr t).description = t.description ∧
    (categorize predict mr t).amount = t.amount ∧
    (categorize predict mr t).transaction_type = t.transaction_type ∧
    (categorize predict mr t).is_recurring = t.is_recurring ∧
    (categorize predict mr t).bank = t.bank ∧
    (bulk_categorize predict mr ts).length = ts.length ∧
    bulk_categorize predict mr ts = ts.map (categorize predict mr) := by
  refine ⟨rfl, rfl, rfl, rfl, rfl, rfl, rfl, rfl, ?_, rfl⟩
  simp [bulk_categorize]
